import Mathlib

/-!
Verification of the ROI estimator and its HTTP boundary from the
onethrive backend repository.

The estimator `calculateROI` (src/roiCalculator.js, duplicated twice in
src/backend.js) is a pure arithmetic function over JavaScript numbers; we
embed it over `ℚ`, mirroring the source line by line.  The POST
/api/roi-calculator handler's validation logic is embedded with explicit
`Option ℚ` fields so that JavaScript's treatment of missing fields
(truthiness, NaN-style comparisons returning false) is captured.
-/

/-- The six numeric inputs of the ROI estimator (spec §3 ROIInput). -/
structure ROIInput where
  numEmployees : ℚ
  avgAnnualSalary : ℚ
  annualRevenue : ℚ
  employeesWhoLeft : ℚ
  avgExtraAbsenteeismDaysPerEmployee : ℚ
  engagementScore : ℚ
deriving DecidableEq, Repr

/-- The eight derived figures returned by the estimator (spec §3 ROIResult). -/
@[ext]
structure ROIResult where
  totalTurnoverCost : ℚ
  totalDisengagementCost : ℚ
  totalAbsenteeismCost : ℚ
  totalHiddenLoss : ℚ
  potentialSavingsMin : ℚ
  potentialSavingsMax : ℚ
  potentialRevenueIncreaseMin : ℚ
  potentialRevenueIncreaseMax : ℚ
deriving DecidableEq, Repr

/-- Validated input ranges (spec §3): `numEmployees ≥ 1`, salaries/revenue/
absenteeism non-negative, `0 ≤ employeesWhoLeft ≤ numEmployees`,
`engagementScore ∈ [1, 10]`. -/
def ValidInput (d : ROIInput) : Prop :=
  1 ≤ d.numEmployees ∧ 0 ≤ d.avgAnnualSalary ∧ 0 ≤ d.annualRevenue ∧
  0 ≤ d.employeesWhoLeft ∧ d.employeesWhoLeft ≤ d.numEmployees ∧
  0 ≤ d.avgExtraAbsenteeismDaysPerEmployee ∧
  1 ≤ d.engagementScore ∧ d.engagementScore ≤ 10

instance (d : ROIInput) : Decidable (ValidInput d) := by
  unfold ValidInput; infer_instance

/-- `calculateROI` from src/roiCalculator.js (lines 139–199), embedded over
`ℚ`; `Math.min`/`Math.max` become `min`/`max`. -/
def calculateROI (data : ROIInput) : ROIResult :=
  let numEmployees := data.numEmployees
  let avgAnnualSalary := data.avgAnnualSalary
  let annualRevenue := data.annualRevenue
  let employeesWhoLeft := data.employeesWhoLeft
  let avgExtraAbsenteeismDaysPerEmployee := data.avgExtraAbsenteeismDaysPerEmployee
  let engagementScore := data.engagementScore
  let DISENGAGEMENT_PRODUCTIVITY_LOSS_FACTOR : ℚ := 0.34
  let AVG_REPLACEMENT_COST_FACTOR : ℚ := 1.25
  let WORKING_DAYS_PER_YEAR : ℚ := 250
  let REVENUE_INCREASE_FACTOR_MIN : ℚ := 0.02
  let REVENUE_INCREASE_FACTOR_MAX : ℚ := 0.05
  let costPerReplacement := avgAnnualSalary * AVG_REPLACEMENT_COST_FACTOR
  let totalTurnoverCost := employeesWhoLeft * costPerReplacement
  let disengagementInfluenceFactor := (10 - engagementScore) / 10
  let avgDailySalary := avgAnnualSalary / WORKING_DAYS_PER_YEAR
  let productivityLossCost := numEmployees * avgAnnualSalary * disengagementInfluenceFactor * DISENGAGEMENT_PRODUCTIVITY_LOSS_FACTOR
  let absenteeismCost := numEmployees * avgExtraAbsenteeismDaysPerEmployee * avgDailySalary * disengagementInfluenceFactor
  let totalDisengagementCost := productivityLossCost + absenteeismCost
  let totalHiddenLoss := totalTurnoverCost + totalDisengagementCost
  let improvedEngagement1Pt := min 10 (engagementScore + 1)
  let newDisengagementInfluenceFactor1Pt := (10 - improvedEngagement1Pt) / 10
  let newProductivityLossCost1Pt := numEmployees * avgAnnualSalary * newDisengagementInfluenceFactor1Pt * DISENGAGEMENT_PRODUCTIVITY_LOSS_FACTOR
  let newAbsenteeismCost1Pt := numEmployees * avgExtraAbsenteeismDaysPerEmployee * avgDailySalary * newDisengagementInfluenceFactor1Pt
  let newTotalDisengagementCost1Pt := newProductivityLossCost1Pt + newAbsenteeismCost1Pt
  let savings1Pt := totalDisengagementCost - newTotalDisengagementCost1Pt
  let improvedEngagement2Pt := min 10 (engagementScore + 2)
  let newDisengagementInfluenceFactor2Pt := (10 - improvedEngagement2Pt) / 10
  let newProductivityLossCost2Pt := numEmployees * avgAnnualSalary * newDisengagementInfluenceFactor2Pt * DISENGAGEMENT_PRODUCTIVITY_LOSS_FACTOR
  let newAbsenteeismCost2Pt := numEmployees * avgExtraAbsenteeismDaysPerEmployee * avgDailySalary * newDisengagementInfluenceFactor2Pt
  let newTotalDisengagementCost2Pt := newProductivityLossCost2Pt + newAbsenteeismCost2Pt
  let savings2Pt := totalDisengagementCost - newTotalDisengagementCost2Pt
  let potentialRevenueIncreaseMin := annualRevenue * REVENUE_INCREASE_FACTOR_MIN * ((engagementScore + 1) / 10)
  let potentialRevenueIncreaseMax := annualRevenue * REVENUE_INCREASE_FACTOR_MAX * ((engagementScore + 2) / 10)
  { totalTurnoverCost := totalTurnoverCost
    totalDisengagementCost := totalDisengagementCost
    totalAbsenteeismCost := absenteeismCost
    totalHiddenLoss := totalHiddenLoss
    potentialSavingsMin := max 0 savings1Pt
    potentialSavingsMax := max 0 savings2Pt
    potentialRevenueIncreaseMin := potentialRevenueIncreaseMin
    potentialRevenueIncreaseMax := potentialRevenueIncreaseMax }

namespace Backend1

/-- First copy of `calculateROI` in src/backend.js (lines 199–259), embedded
verbatim like the one in roiCalculator.js. -/
def calculateROI (data : ROIInput) : ROIResult :=
  let numEmployees := data.numEmployees
  let avgAnnualSalary := data.avgAnnualSalary
  let annualRevenue := data.annualRevenue
  let employeesWhoLeft := data.employeesWhoLeft
  let avgExtraAbsenteeismDaysPerEmployee := data.avgExtraAbsenteeismDaysPerEmployee
  let engagementScore := data.engagementScore
  let DISENGAGEMENT_PRODUCTIVITY_LOSS_FACTOR : ℚ := 0.34
  let AVG_REPLACEMENT_COST_FACTOR : ℚ := 1.25
  let WORKING_DAYS_PER_YEAR : ℚ := 250
  let REVENUE_INCREASE_FACTOR_MIN : ℚ := 0.02
  let REVENUE_INCREASE_FACTOR_MAX : ℚ := 0.05
  let costPerReplacement := avgAnnualSalary * AVG_REPLACEMENT_COST_FACTOR
  let totalTurnoverCost := employeesWhoLeft * costPerReplacement
  let disengagementInfluenceFactor := (10 - engagementScore) / 10
  let avgDailySalary := avgAnnualSalary / WORKING_DAYS_PER_YEAR
  let productivityLossCost := numEmployees * avgAnnualSalary * disengagementInfluenceFactor * DISENGAGEMENT_PRODUCTIVITY_LOSS_FACTOR
  let absenteeismCost := numEmployees * avgExtraAbsenteeismDaysPerEmployee * avgDailySalary * disengagementInfluenceFactor
  let totalDisengagementCost := productivityLossCost + absenteeismCost
  let totalHiddenLoss := totalTurnoverCost + totalDisengagementCost
  let improvedEngagement1Pt := min 10 (engagementScore + 1)
  let newDisengagementInfluenceFactor1Pt := (10 - improvedEngagement1Pt) / 10
  let newProductivityLossCost1Pt := numEmployees * avgAnnualSalary * newDisengagementInfluenceFactor1Pt * DISENGAGEMENT_PRODUCTIVITY_LOSS_FACTOR
  let newAbsenteeismCost1Pt := numEmployees * avgExtraAbsenteeismDaysPerEmployee * avgDailySalary * newDisengagementInfluenceFactor1Pt
  let newTotalDisengagementCost1Pt := newProductivityLossCost1Pt + newAbsenteeismCost1Pt
  let savings1Pt := totalDisengagementCost - newTotalDisengagementCost1Pt
  let improvedEngagement2Pt := min 10 (engagementScore + 2)
  let newDisengagementInfluenceFactor2Pt := (10 - improvedEngagement2Pt) / 10
  let newProductivityLossCost2Pt := numEmployees * avgAnnualSalary * newDisengagementInfluenceFactor2Pt * DISENGAGEMENT_PRODUCTIVITY_LOSS_FACTOR
  let newAbsenteeismCost2Pt := numEmployees * avgExtraAbsenteeismDaysPerEmployee * avgDailySalary * newDisengagementInfluenceFactor2Pt
  let newTotalDisengagementCost2Pt := newProductivityLossCost2Pt + newAbsenteeismCost2Pt
  let savings2Pt := totalDisengagementCost - newTotalDisengagementCost2Pt
  let potentialRevenueIncreaseMin := annualRevenue * REVENUE_INCREASE_FACTOR_MIN * ((engagementScore + 1) / 10)
  let potentialRevenueIncreaseMax := annualRevenue * REVENUE_INCREASE_FACTOR_MAX * ((engagementScore + 2) / 10)
  { totalTurnoverCost := totalTurnoverCost
    totalDisengagementCost := totalDisengagementCost
    totalAbsenteeismCost := absenteeismCost
    totalHiddenLoss := totalHiddenLoss
    potentialSavingsMin := max 0 savings1Pt
    potentialSavingsMax := max 0 savings2Pt
    potentialRevenueIncreaseMin := potentialRevenueIncreaseMin
    potentialRevenueIncreaseMax := potentialRevenueIncreaseMax }

end Backend1

namespace Backend2

/-- Second copy of `calculateROI` in src/backend.js (lines 817–877), embedded
verbatim like the one in roiCalculator.js. -/
def calculateROI (data : ROIInput) : ROIResult :=
  let numEmployees := data.numEmployees
  let avgAnnualSalary := data.avgAnnualSalary
  let annualRevenue := data.annualRevenue
  let employeesWhoLeft := data.employeesWhoLeft
  let avgExtraAbsenteeismDaysPerEmployee := data.avgExtraAbsenteeismDaysPerEmployee
  let engagementScore := data.engagementScore
  let DISENGAGEMENT_PRODUCTIVITY_LOSS_FACTOR : ℚ := 0.34
  let AVG_REPLACEMENT_COST_FACTOR : ℚ := 1.25
  let WORKING_DAYS_PER_YEAR : ℚ := 250
  let REVENUE_INCREASE_FACTOR_MIN : ℚ := 0.02
  let REVENUE_INCREASE_FACTOR_MAX : ℚ := 0.05
  let costPerReplacement := avgAnnualSalary * AVG_REPLACEMENT_COST_FACTOR
  let totalTurnoverCost := employeesWhoLeft * costPerReplacement
  let disengagementInfluenceFactor := (10 - engagementScore) / 10
  let avgDailySalary := avgAnnualSalary / WORKING_DAYS_PER_YEAR
  let productivityLossCost := numEmployees * avgAnnualSalary * disengagementInfluenceFactor * DISENGAGEMENT_PRODUCTIVITY_LOSS_FACTOR
  let absenteeismCost := numEmployees * avgExtraAbsenteeismDaysPerEmployee * avgDailySalary * disengagementInfluenceFactor
  let totalDisengagementCost := productivityLossCost + absenteeismCost
  let totalHiddenLoss := totalTurnoverCost + totalDisengagementCost
  let improvedEngagement1Pt := min 10 (engagementScore + 1)
  let newDisengagementInfluenceFactor1Pt := (10 - improvedEngagement1Pt) / 10
  let newProductivityLossCost1Pt := numEmployees * avgAnnualSalary * newDisengagementInfluenceFactor1Pt * DISENGAGEMENT_PRODUCTIVITY_LOSS_FACTOR
  let newAbsenteeismCost1Pt := numEmployees * avgExtraAbsenteeismDaysPerEmployee * avgDailySalary * newDisengagementInfluenceFactor1Pt
  let newTotalDisengagementCost1Pt := newProductivityLossCost1Pt + newAbsenteeismCost1Pt
  let savings1Pt := totalDisengagementCost - newTotalDisengagementCost1Pt
  let improvedEngagement2Pt := min 10 (engagementScore + 2)
  let newDisengagementInfluenceFactor2Pt := (10 - improvedEngagement2Pt) / 10
  let newProductivityLossCost2Pt := numEmployees * avgAnnualSalary * newDisengagementInfluenceFactor2Pt * DISENGAGEMENT_PRODUCTIVITY_LOSS_FACTOR
  let newAbsenteeismCost2Pt := numEmployees * avgExtraAbsenteeismDaysPerEmployee * avgDailySalary * newDisengagementInfluenceFactor2Pt
  let newTotalDisengagementCost2Pt := newProductivityLossCost2Pt + newAbsenteeismCost2Pt
  let savings2Pt := totalDisengagementCost - newTotalDisengagementCost2Pt
  let potentialRevenueIncreaseMin := annualRevenue * REVENUE_INCREASE_FACTOR_MIN * ((engagementScore + 1) / 10)
  let potentialRevenueIncreaseMax := annualRevenue * REVENUE_INCREASE_FACTOR_MAX * ((engagementScore + 2) / 10)
  { totalTurnoverCost := totalTurnoverCost
    totalDisengagementCost := totalDisengagementCost
    totalAbsenteeismCost := absenteeismCost
    totalHiddenLoss := totalHiddenLoss
    potentialSavingsMin := max 0 savings1Pt
    potentialSavingsMax := max 0 savings2Pt
    potentialRevenueIncreaseMin := potentialRevenueIncreaseMin
    potentialRevenueIncreaseMax := potentialRevenueIncreaseMax }

end Backend2

/-- Disengagement cost as written in the spec (§4.1 steps 2–5), as a function
of the (possibly improved) engagement score: productivity loss
`n * s * ((10 - es)/10) * 0.34` plus absenteeism loss
`n * a * (s/250) * ((10 - es)/10)`. -/
def specDisengagementCost (input : ROIInput) (es : ℚ) : ℚ :=
  input.numEmployees * input.avgAnnualSalary * ((10 - es) / 10) * 0.34 +
    input.numEmployees * input.avgExtraAbsenteeismDaysPerEmployee *
      (input.avgAnnualSalary / 250) * ((10 - es) / 10)

/-- The spec's nine-step algorithm (§4.1), written from the spec's words, to
be compared with `calculateROI` (the embedding of the source). -/
def specROI (input : ROIInput) : ROIResult :=
  let totalTurnoverCost := input.employeesWhoLeft * (input.avgAnnualSalary * 1.25)
  let totalDisengagementCost := specDisengagementCost input input.engagementScore
  let savings := fun (delta : ℚ) =>
    max 0 (totalDisengagementCost -
      specDisengagementCost input (min 10 (input.engagementScore + delta)))
  { totalTurnoverCost := totalTurnoverCost
    totalDisengagementCost := totalDisengagementCost
    totalAbsenteeismCost := input.numEmployees *
      input.avgExtraAbsenteeismDaysPerEmployee * (input.avgAnnualSalary / 250) *
      ((10 - input.engagementScore) / 10)
    totalHiddenLoss := totalTurnoverCost + totalDisengagementCost
    potentialSavingsMin := savings 1
    potentialSavingsMax := savings 2
    potentialRevenueIncreaseMin := input.annualRevenue * 0.02 * (input.engagementScore + 1) / 10
    potentialRevenueIncreaseMax := input.annualRevenue * 0.05 * (input.engagementScore + 2) / 10 }

/-- A POST /api/roi-calculator request body as destructured by the handler
(src/roiCalculator.js lines 204–213): the six numeric fields may be absent
(`none` models JavaScript `undefined`); `email`/`phoneNumber` are recorded
as their truthiness. -/
structure ROIRequest where
  numEmployees : Option ℚ
  avgAnnualSalary : Option ℚ
  annualRevenue : Option ℚ
  employeesWhoLeft : Option ℚ
  avgExtraAbsenteeismDaysPerEmployee : Option ℚ
  engagementScore : Option ℚ
  email : Bool
  phoneNumber : Bool
deriving DecidableEq, Repr

/-- The object literal the handler passes to `calculateROI`
(src/roiCalculator.js lines 231–238): the six destructured fields, each
possibly `undefined`. -/
structure ROIRawInput where
  numEmployees : Option ℚ
  avgAnnualSalary : Option ℚ
  annualRevenue : Option ℚ
  employeesWhoLeft : Option ℚ
  avgExtraAbsenteeismDaysPerEmployee : Option ℚ
  engagementScore : Option ℚ
deriving DecidableEq, Repr

/-- JavaScript truthiness of a possibly-absent number: `undefined` and `0`
are falsy, every other number truthy. -/
def truthy : Option ℚ → Bool
  | none => false
  | some v => v != 0

/-- JavaScript `<` on possibly-absent numbers: a comparison involving
`undefined` (which coerces to NaN) is false. -/
def jsLt : Option ℚ → Option ℚ → Bool
  | some x, some y => x < y
  | _, _ => false

/-- JavaScript `>` on possibly-absent numbers: a comparison involving
`undefined` (which coerces to NaN) is false. -/
def jsGt : Option ℚ → Option ℚ → Bool
  | some x, some y => x > y
  | _, _ => false

/-- The handler's first guard (src/roiCalculator.js line 216):
`!numEmployees || !avgAnnualSalary || !annualRevenue || !email || !phoneNumber`. -/
def missingRequiredFields (r : ROIRequest) : Bool :=
  !truthy r.numEmployees || !truthy r.avgAnnualSalary || !truthy r.annualRevenue ||
    !r.email || !r.phoneNumber

/-- Outcome of the POST /api/roi-calculator handler, up to the point where
`calculateROI` is (or is not) invoked: either an HTTP 400 with the error
message, or the invocation of `calculateROI` on the assembled input. -/
inductive HandlerOutcome where
  | badRequest (msg : String)
  | computed (input : ROIRawInput)
deriving DecidableEq, Repr

/-- The validation sequence of the POST /api/roi-calculator handler
(src/roiCalculator.js lines 202–238): presence/truthiness guard, then
`employeesWhoLeft > numEmployees`, then `engagementScore < 1 ||
engagementScore > 10`; if all pass, `calculateROI` is invoked on the six
destructured fields. -/
def handleROI (r : ROIRequest) : HandlerOutcome :=
  if missingRequiredFields r then
    .badRequest "All required fields must be provided"
  else if jsGt r.employeesWhoLeft r.numEmployees then
    .badRequest "Number of employees who left cannot be more than total employees"
  else if jsLt r.engagementScore (some 1) || jsGt r.engagementScore (some 10) then
    .badRequest "Engagement score must be between 1 and 10"
  else
    .computed ⟨r.numEmployees, r.avgAnnualSalary, r.annualRevenue,
      r.employeesWhoLeft, r.avgExtraAbsenteeismDaysPerEmployee, r.engagementScore⟩

/-- Whether the handler outcome reached the computation. -/
def HandlerOutcome.isComputed : HandlerOutcome → Bool
  | .computed _ => true
  | .badRequest _ => false

/-- The conjunction of the three validation guards actually present in the
code: the truthiness guard passes, `employeesWhoLeft > numEmployees` is
false, and the engagement-score range guard is false. -/
def passesROIChecks (r : ROIRequest) : Bool :=
  !missingRequiredFields r && !jsGt r.employeesWhoLeft r.numEmployees &&
    !(jsLt r.engagementScore (some 1) || jsGt r.engagementScore (some 10))

/-- Division that signals an error on a zero divisor, used to check that the
estimator performs no division by zero. -/
def sdiv (a b : ℚ) : Option ℚ :=
  if b = 0 then none else some (a / b)

/-- The local `avgDailySalary = avgAnnualSalary / WORKING_DAYS_PER_YEAR` of
`calculateROI` (src/roiCalculator.js line 162). -/
def avgDailySalaryOf (d : ROIInput) : ℚ :=
  d.avgAnnualSalary / 250

/-- `calculateROI` with every division routed through `sdiv`, so that a
division by zero would surface as `none`.  The divisions in the source are
exactly the ones here: by 10 (the engagement-factor normalizations, the
revenue factors) and by `WORKING_DAYS_PER_YEAR = 250`. -/
def calculateROIChecked (data : ROIInput) : Option ROIResult := do
  let numEmployees := data.numEmployees
  let avgAnnualSalary := data.avgAnnualSalary
  let annualRevenue := data.annualRevenue
  let employeesWhoLeft := data.employeesWhoLeft
  let avgExtraAbsenteeismDaysPerEmployee := data.avgExtraAbsenteeismDaysPerEmployee
  let engagementScore := data.engagementScore
  let DISENGAGEMENT_PRODUCTIVITY_LOSS_FACTOR : ℚ := 0.34
  let AVG_REPLACEMENT_COST_FACTOR : ℚ := 1.25
  let WORKING_DAYS_PER_YEAR : ℚ := 250
  let REVENUE_INCREASE_FACTOR_MIN : ℚ := 0.02
  let REVENUE_INCREASE_FACTOR_MAX : ℚ := 0.05
  let costPerReplacement := avgAnnualSalary * AVG_REPLACEMENT_COST_FACTOR
  let totalTurnoverCost := employeesWhoLeft * costPerReplacement
  let disengagementInfluenceFactor ← sdiv (10 - engagementScore) 10
  let avgDailySalary ← sdiv avgAnnualSalary WORKING_DAYS_PER_YEAR
  let productivityLossCost := numEmployees * avgAnnualSalary * disengagementInfluenceFactor * DISENGAGEMENT_PRODUCTIVITY_LOSS_FACTOR
  let absenteeismCost := numEmployees * avgExtraAbsenteeismDaysPerEmployee * avgDailySalary * disengagementInfluenceFactor
  let totalDisengagementCost := productivityLossCost + absenteeismCost
  let totalHiddenLoss := totalTurnoverCost + totalDisengagementCost
  let improvedEngagement1Pt := min 10 (engagementScore + 1)
  let newDisengagementInfluenceFactor1Pt ← sdiv (10 - improvedEngagement1Pt) 10
  let newProductivityLossCost1Pt := numEmployees * avgAnnualSalary * newDisengagementInfluenceFactor1Pt * DISENGAGEMENT_PRODUCTIVITY_LOSS_FACTOR
  let newAbsenteeismCost1Pt := numEmployees * avgExtraAbsenteeismDaysPerEmployee * avgDailySalary * newDisengagementInfluenceFactor1Pt
  let newTotalDisengagementCost1Pt := newProductivityLossCost1Pt + newAbsenteeismCost1Pt
  let savings1Pt := totalDisengagementCost - newTotalDisengagementCost1Pt
  let improvedEngagement2Pt := min 10 (engagementScore + 2)
  let newDisengagementInfluenceFactor2Pt ← sdiv (10 - improvedEngagement2Pt) 10
  let newProductivityLossCost2Pt := numEmployees * avgAnnualSalary * newDisengagementInfluenceFactor2Pt * DISENGAGEMENT_PRODUCTIVITY_LOSS_FACTOR
  let newAbsenteeismCost2Pt := numEmployees * avgExtraAbsenteeismDaysPerEmployee * avgDailySalary * newDisengagementInfluenceFactor2Pt
  let newTotalDisengagementCost2Pt := newProductivityLossCost2Pt + newAbsenteeismCost2Pt
  let savings2Pt := totalDisengagementCost - newTotalDisengagementCost2Pt
  let revRatioMin ← sdiv (engagementScore + 1) 10
  let potentialRevenueIncreaseMin := annualRevenue * REVENUE_INCREASE_FACTOR_MIN * revRatioMin
  let revRatioMax ← sdiv (engagementScore + 2) 10
  let potentialRevenueIncreaseMax := annualRevenue * REVENUE_INCREASE_FACTOR_MAX * revRatioMax
  pure
    { totalTurnoverCost := totalTurnoverCost
      totalDisengagementCost := totalDisengagementCost
      totalAbsenteeismCost := absenteeismCost
      totalHiddenLoss := totalHiddenLoss
      potentialSavingsMin := max 0 savings1Pt
      potentialSavingsMax := max 0 savings2Pt
      potentialRevenueIncreaseMin := potentialRevenueIncreaseMin
      potentialRevenueIncreaseMax := potentialRevenueIncreaseMax }

/-- C1: for every valid input, `calculateROI` returns exactly the `ROIResult`
computed by the spec's nine-step algorithm (`specROI`). -/
theorem calculateROI_matches_spec_algorithm (d : ROIInput) (h : ValidInput d) :
    calculateROI d = specROI d := by
  simp only [calculateROI, specROI, specDisengagementCost]
  ext <;> ring_nf

/-- Witness for C1 at the spec's worked example input. -/
theorem calculateROI_matches_spec_algorithm_witness :
    ValidInput ⟨100, 600000, 50000000, 10, 5, 6⟩ ∧
      calculateROI ⟨100, 600000, 50000000, 10, 5, 6⟩ =
        specROI ⟨100, 600000, 50000000, 10, 5, 6⟩ :=
  ⟨by decide, calculateROI_matches_spec_algorithm _ (by decide)⟩

/-- C2: on the spec's worked example (100 employees, salary 600000, revenue
50000000, 10 leavers, 5 extra absenteeism days, engagement 6), `calculateROI`
yields turnover cost 7,500,000, disengagement cost 8,640,000 (of which
480,000 is absenteeism), hidden loss 16,140,000, and daily salary 2400. -/
theorem calculateROI_spec_example :
    (calculateROI ⟨100, 600000, 50000000, 10, 5, 6⟩).totalTurnoverCost = 7500000 ∧
    (calculateROI ⟨100, 600000, 50000000, 10, 5, 6⟩).totalDisengagementCost = 8640000 ∧
    (calculateROI ⟨100, 600000, 50000000, 10, 5, 6⟩).totalAbsenteeismCost = 480000 ∧
    (calculateROI ⟨100, 600000, 50000000, 10, 5, 6⟩).totalHiddenLoss = 16140000 ∧
    avgDailySalaryOf ⟨100, 600000, 50000000, 10, 5, 6⟩ = 2400 := by
  norm_num [calculateROI, avgDailySalaryOf]

/-- C3 counterexample: a request with `engagementScore` absent (and the other
checks satisfiable) is not rejected — the handler reaches the computation, so
a missing ROIInput field does not always yield HTTP 400. -/
theorem roi_handler_missing_engagement_reaches_compute :
    (ROIRequest.mk (some 100) (some 600000) (some 50000000) (some 10) (some 5)
        none true true).engagementScore = none ∧
      handleROI (ROIRequest.mk (some 100) (some 600000) (some 50000000) (some 10) (some 5)
          none true true) =
        .computed ⟨some 100, some 600000, some 50000000, some 10, some 5, none⟩ :=
  ⟨rfl, by decide⟩

/-- C3 amended: the handler reaches `calculateROI` exactly when the three
guards of the code pass — the truthiness check on `numEmployees`,
`avgAnnualSalary`, `annualRevenue`, `email`, `phoneNumber`, the
`employeesWhoLeft > numEmployees` check, and the `engagementScore` range
check; absence of `employeesWhoLeft`, `avgExtraAbsenteeismDaysPerEmployee`
or `engagementScore` is not itself rejected. -/
theorem roi_handler_guard_characterization (r : ROIRequest) :
    (handleROI r).isComputed = passesROIChecks r ∧
      (passesROIChecks r = true →
        handleROI r = .computed ⟨r.numEmployees, r.avgAnnualSalary, r.annualRevenue,
          r.employeesWhoLeft, r.avgExtraAbsenteeismDaysPerEmployee, r.engagementScore⟩) := by
  unfold handleROI passesROIChecks
  by_cases h1 : missingRequiredFields r = true <;>
    by_cases h2 : jsGt r.employeesWhoLeft r.numEmployees = true <;>
      by_cases h3 : (jsLt r.engagementScore (some 1) || jsGt r.engagementScore (some 10)) = true <;>
        simp [h1, h2, h3, HandlerOutcome.isComputed]

/-- Witness for the amended C3 at a fully valid request. -/
theorem roi_handler_guard_characterization_witness :
    passesROIChecks ⟨some 100, some 600000, some 50000000, some 10, some 5,
        some 6, true, true⟩ = true ∧
      handleROI ⟨some 100, some 600000, some 50000000, some 10, some 5,
          some 6, true, true⟩ =
        .computed ⟨some 100, some 600000, some 50000000, some 10, some 5, some 6⟩ :=
  ⟨by decide, (roi_handler_guard_characterization _).2 (by decide)⟩

/-- C4: on valid inputs, `potentialSavingsMin ≤ potentialSavingsMax` whenever
`engagementScore ≤ 8`, and both savings figures are always non-negative. -/
theorem potentialSavings_nonneg_and_ordered (d : ROIInput) (h : ValidInput d) :
    (d.engagementScore ≤ 8 →
      (calculateROI d).potentialSavingsMin ≤ (calculateROI d).potentialSavingsMax) ∧
    0 ≤ (calculateROI d).potentialSavingsMin ∧ 0 ≤ (calculateROI d).potentialSavingsMax := by
  obtain ⟨hn, hs, hrev, hw0, hwn, ha, he1, he10⟩ := h
  refine ⟨?_, le_max_left 0 _, le_max_left 0 _⟩
  intro h8
  simp only [calculateROI]
  have hm1 : min (10:ℚ) (d.engagementScore + 1) = d.engagementScore + 1 :=
    min_eq_right (by linarith)
  have hm2 : min (10:ℚ) (d.engagementScore + 2) = d.engagementScore + 2 :=
    min_eq_right (by linarith)
  rw [hm1, hm2]
  refine max_le_max le_rfl (sub_le_sub_left ?_ _)
  have hns : 0 ≤ d.numEmployees * d.avgAnnualSalary := mul_nonneg (by linarith) hs
  have hnas : 0 ≤ d.numEmployees * d.avgExtraAbsenteeismDaysPerEmployee *
      (d.avgAnnualSalary / 250) :=
    mul_nonneg (mul_nonneg (by linarith) ha) (by positivity)
  nlinarith [hns, hnas]

/-- Witness for C4 at the spec's worked example input. -/
theorem potentialSavings_nonneg_and_ordered_witness :
    ValidInput ⟨100, 600000, 50000000, 10, 5, 6⟩ ∧
    (⟨100, 600000, 50000000, 10, 5, 6⟩ : ROIInput).engagementScore ≤ 8 ∧
    (calculateROI ⟨100, 600000, 50000000, 10, 5, 6⟩).potentialSavingsMin ≤
      (calculateROI ⟨100, 600000, 50000000, 10, 5, 6⟩).potentialSavingsMax ∧
    0 ≤ (calculateROI ⟨100, 600000, 50000000, 10, 5, 6⟩).potentialSavingsMin ∧
    0 ≤ (calculateROI ⟨100, 600000, 50000000, 10, 5, 6⟩).potentialSavingsMax := by
  have H := potentialSavings_nonneg_and_ordered ⟨100, 600000, 50000000, 10, 5, 6⟩ (by decide)
  exact ⟨by decide, by decide, H.1 (by decide), H.2.1, H.2.2⟩

/-- C5: on valid inputs with `engagementScore = 10`, the disengagement cost
and both savings figures are zero, while the revenue-increase fields use the
uncapped score `10 + delta`, strictly exceeding (for positive revenue) what a
score capped at 10 would give. -/
theorem engagement_ten_boundary (d : ROIInput) (h : ValidInput d)
    (h10 : d.engagementScore = 10) :
    (calculateROI d).totalDisengagementCost = 0 ∧
    (calculateROI d).potentialSavingsMin = 0 ∧
    (calculateROI d).potentialSavingsMax = 0 ∧
    (calculateROI d).potentialRevenueIncreaseMin = d.annualRevenue * 0.02 * (11 / 10) ∧
    (calculateROI d).potentialRevenueIncreaseMax = d.annualRevenue * 0.05 * (12 / 10) ∧
    (0 < d.annualRevenue →
      d.annualRevenue * 0.02 * (min 10 (d.engagementScore + 1) / 10) <
        (calculateROI d).potentialRevenueIncreaseMin ∧
      d.annualRevenue * 0.05 * (min 10 (d.engagementScore + 2) / 10) <
        (calculateROI d).potentialRevenueIncreaseMax) := by
  have hm1 : min (10:ℚ) (10 + 1) = 10 := by norm_num
  have hm2 : min (10:ℚ) (10 + 2) = 10 := by norm_num
  simp only [calculateROI, h10, hm1, hm2]
  norm_num
  intro hrev
  constructor <;> nlinarith [hrev]

/-- Witness for C5 at a maximal-engagement input with positive revenue. -/
theorem engagement_ten_boundary_witness :
    ValidInput ⟨100, 600000, 50000000, 10, 5, 10⟩ ∧
    (calculateROI ⟨100, 600000, 50000000, 10, 5, 10⟩).totalDisengagementCost = 0 ∧
    (calculateROI ⟨100, 600000, 50000000, 10, 5, 10⟩).potentialSavingsMin = 0 ∧
    (calculateROI ⟨100, 600000, 50000000, 10, 5, 10⟩).potentialSavingsMax = 0 ∧
    (calculateROI ⟨100, 600000, 50000000, 10, 5, 10⟩).potentialRevenueIncreaseMin =
      (50000000 : ℚ) * 0.02 * (11 / 10) ∧
    (calculateROI ⟨100, 600000, 50000000, 10, 5, 10⟩).potentialRevenueIncreaseMax =
      (50000000 : ℚ) * 0.05 * (12 / 10) ∧
    (50000000 : ℚ) * 0.02 * (min 10 ((10 : ℚ) + 1) / 10) <
      (calculateROI ⟨100, 600000, 50000000, 10, 5, 10⟩).potentialRevenueIncreaseMin ∧
    (50000000 : ℚ) * 0.05 * (min 10 ((10 : ℚ) + 2) / 10) <
      (calculateROI ⟨100, 600000, 50000000, 10, 5, 10⟩).potentialRevenueIncreaseMax := by
  have H := engagement_ten_boundary ⟨100, 600000, 50000000, 10, 5, 10⟩ (by decide) rfl
  exact ⟨by decide, H.1, H.2.1, H.2.2.1, H.2.2.2.1, H.2.2.2.2.1,
    (H.2.2.2.2.2 (by decide)).1, (H.2.2.2.2.2 (by decide)).2⟩

/-- C6: on valid inputs, `potentialRevenueIncreaseMin ≤
potentialRevenueIncreaseMax`. -/
theorem revenueIncrease_min_le_max (d : ROIInput) (h : ValidInput d) :
    (calculateROI d).potentialRevenueIncreaseMin ≤
      (calculateROI d).potentialRevenueIncreaseMax := by
  obtain ⟨hn, hs, hrev, hw0, hwn, ha, he1, he10⟩ := h
  simp only [calculateROI]
  have key : 0 ≤ d.annualRevenue * (0.03 * d.engagementScore + 0.08) :=
    mul_nonneg hrev (by linarith)
  nlinarith [key]

/-- Witness for C6 at the spec's worked example input. -/
theorem revenueIncrease_min_le_max_witness :
    ValidInput ⟨100, 600000, 50000000, 10, 5, 6⟩ ∧
      (calculateROI ⟨100, 600000, 50000000, 10, 5, 6⟩).potentialRevenueIncreaseMin ≤
        (calculateROI ⟨100, 600000, 50000000, 10, 5, 6⟩).potentialRevenueIncreaseMax :=
  ⟨by decide, revenueIncrease_min_le_max _ (by decide)⟩

/-- C7: for every input, `totalHiddenLoss` equals `totalTurnoverCost +
totalDisengagementCost`. -/
theorem totalHiddenLoss_is_sum (d : ROIInput) :
    (calculateROI d).totalHiddenLoss =
      (calculateROI d).totalTurnoverCost + (calculateROI d).totalDisengagementCost := by
  rfl

/-- C8: `calculateROI` performs no division by zero — routing every division
of the source through a checked division still yields a (complete) result on
every input; and with `avgAnnualSalary = 0` the daily salary is 0. -/
theorem calculateROI_no_division_by_zero (d : ROIInput) :
    calculateROIChecked d = some (calculateROI d) ∧
      (d.avgAnnualSalary = 0 → avgDailySalaryOf d = 0) := by
  constructor
  · norm_num [calculateROIChecked, calculateROI, sdiv]
  · intro h
    simp [avgDailySalaryOf, h]

/-- Witness for C8 at a zero-salary input. -/
theorem calculateROI_no_division_by_zero_witness :
    (⟨100, 0, 50000000, 10, 5, 6⟩ : ROIInput).avgAnnualSalary = 0 ∧
      avgDailySalaryOf ⟨100, 0, 50000000, 10, 5, 6⟩ = 0 ∧
      calculateROIChecked ⟨100, 0, 50000000, 10, 5, 6⟩ =
        some (calculateROI ⟨100, 0, 50000000, 10, 5, 6⟩) :=
  ⟨rfl, (calculateROI_no_division_by_zero ⟨100, 0, 50000000, 10, 5, 6⟩).2 rfl,
    (calculateROI_no_division_by_zero ⟨100, 0, 50000000, 10, 5, 6⟩).1⟩

/-- C9: the three textual copies of the estimator — `calculateROI` in
roiCalculator.js and the two copies in backend.js — are extensionally equal. -/
theorem backend_copies_agree (d : ROIInput) :
    Backend1.calculateROI d = calculateROI d ∧ Backend2.calculateROI d = calculateROI d :=
  ⟨rfl, rfl⟩

/-- C10: the truthiness guard rejects any request in which `numEmployees`,
`avgAnnualSalary` or `annualRevenue` equals 0 with the message "All required
fields must be provided" (so `calculateROI` is not reached), and its value
does not depend on `employeesWhoLeft`, `avgExtraAbsenteeismDaysPerEmployee`
or `engagementScore` at all. -/
theorem truthiness_guard_behavior (r : ROIRequest) :
    ((r.numEmployees = some 0 ∨ r.avgAnnualSalary = some 0 ∨ r.annualRevenue = some 0) →
      handleROI r = .badRequest "All required fields must be provided") ∧
    (∀ w a e w' a' e',
      missingRequiredFields ⟨r.numEmployees, r.avgAnnualSalary, r.annualRevenue,
        w, a, e, r.email, r.phoneNumber⟩ =
      missingRequiredFields ⟨r.numEmployees, r.avgAnnualSalary, r.annualRevenue,
        w', a', e', r.email, r.phoneNumber⟩) := by
  constructor
  · intro h
    unfold handleROI missingRequiredFields
    rcases h with h | h | h <;> rw [h] <;> simp [truthy]
  · intro w a e w' a' e'
    rfl

/-- Witness for C10 at a request whose `numEmployees` is 0. -/
theorem truthiness_guard_behavior_witness :
    handleROI ⟨some 0, some 600000, some 50000000, some 10, some 5, some 6, true, true⟩ =
      .badRequest "All required fields must be provided" :=
  (truthiness_guard_behavior
    ⟨some 0, some 600000, some 50000000, some 10, some 5, some 6, true, true⟩).1 (Or.inl rfl)
